import Mathlib

/-!
# Order saga coordinator and message broker client: a shallow embedding

This file embeds the order service (`OrderService` in the source: `createOrder`,
`getOrderById`, `cancelOrder`, and the four saga event handlers) and the
message broker client (`RabbitMQClient`: `publish`/`subscribe` payload
encoding and the dispatch loop, and `close`) as executable Lean functions,
and proves properties of them.

Conventions of the embedding:
* The Prisma-backed database is a pure `Db` value (a list of products and a
  list of orders); each service method takes the current `Db` and returns the
  next `Db` together with an `Except` result and the list of events it
  published.  A thrown `NotFoundException` / `BadRequestException` becomes
  `ServiceError.notFound` / `ServiceError.badRequest` with the source's
  message string.
* JavaScript `number` values for prices, amounts and quantities are
  integers: every value the claims mention is integral, JavaScript
  arithmetic is exact on them, and the claims involve only sums, products
  and comparisons.
* `new Date()` timestamps are supplied as an explicit `now : Nat` argument
  (milliseconds since the Unix epoch).
* `prisma.order.update` throws when no row matches, so the event handlers
  return `Option`: `none` models the handler throwing (a `HandlerFailure`).
-/

/-- Stock row of a product: quantity on hand and reserved quantity. -/
structure Stock where
  quantity : Int
  reserved : Int
deriving DecidableEq

/-- Catalog product together with its optional stock record. -/
structure Product where
  id : String
  name : String
  price : Int
  stock : Option Stock
deriving DecidableEq

/-- One item of a create-order request: product reference and quantity. -/
structure RequestItem where
  productId : String
  quantity : Int
deriving DecidableEq

/-- `CreateOrderDto` from the source. -/
structure CreateOrderDto where
  userId : String
  items : List RequestItem
  shippingAddressId : String
deriving DecidableEq

/-- `OrderStatus` enum from the shared types. -/
inductive OrderStatus where
  | PENDING
  | CONFIRMED
  | PROCESSING
  | SHIPPED
  | DELIVERED
  | CANCELLED
  | FAILED
deriving DecidableEq

/-- Persisted order item: immutable snapshot of product, quantity, unit price. -/
structure OrderItem where
  productId : String
  quantity : Int
  price : Int
deriving DecidableEq

/-- Persisted order row. -/
structure Order where
  id : String
  userId : String
  status : OrderStatus
  totalAmount : Int
  items : List OrderItem
  shippingAddressId : String
deriving DecidableEq

/-- The repository state: product catalog (with stock) and order table. -/
structure Db where
  products : List Product
  orders : List Order
deriving DecidableEq

/-- The two exception classes the service throws, with their messages:
`NotFoundException` (the spec's `NotFound`) and `BadRequestException`
(the spec's `InvalidRequest` / `InvalidState`). -/
inductive ServiceError where
  | notFound (msg : String)
  | badRequest (msg : String)
deriving DecidableEq

deriving instance DecidableEq for Except

/-- `PaymentMethod` enum from the shared types. -/
inductive PaymentMethod where
  | STRIPE
  | RAZORPAY
  | PAYPAL
deriving DecidableEq

/-- `InventoryReservedEvent` from the shared types. -/
structure InventoryReservedEvent where
  orderId : String
  success : Bool
  message : Option String
  timestamp : Nat
deriving DecidableEq

/-- `InventoryFailedEvent` from the shared types. -/
structure InventoryFailedEvent where
  orderId : String
  reason : String
  timestamp : Nat
deriving DecidableEq

/-- `PaymentCompletedEvent` from the shared types. -/
structure PaymentCompletedEvent where
  orderId : String
  transactionId : String
  amount : Int
  paymentMethod : PaymentMethod
  timestamp : Nat
deriving DecidableEq

/-- `PaymentFailedEvent` from the shared types. -/
structure PaymentFailedEvent where
  orderId : String
  reason : String
  timestamp : Nat
deriving DecidableEq

/-- Payload of an event published by the order service (the object literals
passed to `rabbitmq.publish` in the source). -/
inductive EventPayload where
  | orderCreated (orderId userId : String) (items : List RequestItem)
      (totalAmount : Int) (timestamp : Nat)
  | orderCancelled (orderId reason : String) (timestamp : Nat)
  | orderConfirmed (orderId transactionId : String) (timestamp : Nat)
  | paymentInitiate (orderId : String) (amount : Int) (timestamp : Nat)
  | inventoryRelease (orderId : String) (timestamp : Nat)
deriving DecidableEq

/-- One `rabbitmq.publish(exchange, routingKey, payload)` call. -/
structure Published where
  exchange : String
  routingKey : String
  payload : EventPayload
deriving DecidableEq

/-- `prisma.order.findUnique({ where: { id } })`. -/
def findOrder (db : Db) (orderId : String) : Option Order :=
  db.orders.find? (fun o => o.id == orderId)

/-- `prisma.order.update({ where: { id }, data: { status } })`: updates the
matching row and returns the new table, or `none` (Prisma throws) when no
row matches. -/
def updateOrderStatus (db : Db) (orderId : String) (st : OrderStatus) :
    Option Db :=
  if db.orders.any (fun o => o.id == orderId) then
    some { db with
      orders := db.orders.map (fun o =>
        if o.id == orderId then { o with status := st } else o) }
  else
    none

namespace OrderService

/-- The validation loop of `createOrder` (source lines 59-70): walks the
request items in order; for each item finds its product among the fetched
`products`, throws `NotFoundException` if absent, throws
`BadRequestException` if the product has no stock record or
`stock.quantity < item.quantity`, and otherwise accumulates
`product.price * item.quantity` into the total. -/
def computeTotal (products : List Product) :
    List RequestItem → Except ServiceError Int
  | [] => .ok 0
  | item :: rest =>
    match products.find? (fun p => p.id == item.productId) with
    | none => .error (.notFound ("Product " ++ item.productId ++ " not found"))
    | some product =>
      match product.stock with
      | none => .error (.badRequest ("Insufficient stock for " ++ product.name))
      | some s =>
        if s.quantity < item.quantity then
          .error (.badRequest ("Insufficient stock for " ++ product.name))
        else
          match computeTotal products rest with
          | .error e => .error e
          | .ok t => .ok (product.price * item.quantity + t)

/-- The item snapshot built inside `prisma.order.create` (source lines
80-87): each request item is stored with the catalog price of its product.
The source uses a non-null assertion on `products.find(...)!`, justified by
the validation loop having already run; the `0` default is unreachable on
the success path. -/
def snapshotItems (products : List Product) (items : List RequestItem) :
    List OrderItem :=
  items.map (fun item =>
    { productId := item.productId
      quantity := item.quantity
      price :=
        match products.find? (fun p => p.id == item.productId) with
        | some p => p.price
        | none => 0 })

/-- `createOrder` (source lines 44-114).  `newOrderId` stands for the id
Prisma generates for the inserted row and `now` for `new Date()`.  On any
thrown exception the repository is returned unchanged (every throw in the
source happens before `prisma.order.create`). -/
def createOrder (db : Db) (dto : CreateOrderDto) (newOrderId : String)
    (now : Nat) : Db × Except ServiceError (Order × List Published) :=
  let productIds := dto.items.map (fun item => item.productId)
  let products := db.products.filter (fun p => productIds.contains p.id)
  if products.length != dto.items.length then
    (db, .error (.notFound "Some products not found"))
  else
    match computeTotal products dto.items with
    | .error e => (db, .error e)
    | .ok totalAmount =>
      let order : Order :=
        { id := newOrderId
          userId := dto.userId
          status := .PENDING
          totalAmount := totalAmount
          items := snapshotItems products dto.items
          shippingAddressId := dto.shippingAddressId }
      let db' := { db with orders := db.orders ++ [order] }
      (db', .ok (order,
        [{ exchange := "orders.exchange"
           routingKey := "order.created"
           payload := .orderCreated newOrderId dto.userId dto.items
             totalAmount now }]))

/-- `getOrderById` (source lines 116-140): finds the order by id, further
filtered by `userId` when one is supplied; throws `NotFoundException`
otherwise. -/
def getOrderById (db : Db) (orderId : String) (userId : Option String) :
    Except ServiceError Order :=
  match db.orders.find? (fun o =>
      o.id == orderId &&
        (match userId with | none => true | some u => o.userId == u)) with
  | some o => .ok o
  | none => .error (.notFound "Order not found")

/-- `cancelOrder` (source lines 173-193): fetches the order (scoped to the
user when given), rejects unless the status is `PENDING` or `CONFIRMED`,
otherwise sets the status to `CANCELLED` and publishes `order.cancelled`. -/
def cancelOrder (db : Db) (orderId : String) (userId : Option String)
    (now : Nat) : Db × Except ServiceError (Order × List Published) :=
  match getOrderById db orderId userId with
  | .error e => (db, .error e)
  | .ok order =>
    if order.status != .PENDING && order.status != .CONFIRMED then
      (db, .error (.badRequest "Cannot cancel order in current status"))
    else
      let db' := { db with
        orders := db.orders.map (fun o =>
          if o.id == orderId then { o with status := .CANCELLED } else o) }
      (db', .ok ({ order with status := .CANCELLED },
        [{ exchange := "orders.exchange"
           routingKey := "order.cancelled"
           payload := .orderCancelled orderId "Cancelled by user" now }]))

/-- `handleInventoryReserved` (source lines 197-228): on `success`,
unconditionally updates the order to `CONFIRMED`, re-fetches it and, when
found, publishes `payment.initiate` with its total amount; on failure,
updates the order to `FAILED`. -/
def handleInventoryReserved (db : Db) (ev : InventoryReservedEvent)
    (now : Nat) : Option (Db × List Published) :=
  if ev.success then
    match updateOrderStatus db ev.orderId .CONFIRMED with
    | none => none
    | some db1 =>
      match findOrder db1 ev.orderId with
      | some order =>
        some (db1,
          [{ exchange := "payments.exchange"
             routingKey := "payment.initiate"
             payload := .paymentInitiate order.id order.totalAmount now }])
      | none => some (db1, [])
  else
    match updateOrderStatus db ev.orderId .FAILED with
    | none => none
    | some db1 => some (db1, [])

/-- `handleInventoryFailed` (source lines 230-237): unconditionally updates
the order to `FAILED`; publishes nothing. -/
def handleInventoryFailed (db : Db) (ev : InventoryFailedEvent) :
    Option (Db × List Published) :=
  match updateOrderStatus db ev.orderId .FAILED with
  | none => none
  | some db1 => some (db1, [])

/-- `handlePaymentCompleted` (source lines 239-253): unconditionally updates
the order to `PROCESSING` and publishes `order.confirmed`. -/
def handlePaymentCompleted (db : Db) (ev : PaymentCompletedEvent)
    (now : Nat) : Option (Db × List Published) :=
  match updateOrderStatus db ev.orderId .PROCESSING with
  | none => none
  | some db1 =>
    some (db1,
      [{ exchange := "orders.exchange"
         routingKey := "order.confirmed"
         payload := .orderConfirmed ev.orderId ev.transactionId now }])

/-- `handlePaymentFailed` (source lines 255-268): unconditionally updates
the order to `FAILED` and publishes `inventory.release`. -/
def handlePaymentFailed (db : Db) (ev : PaymentFailedEvent) (now : Nat) :
    Option (Db × List Published) :=
  match updateOrderStatus db ev.orderId .FAILED with
  | none => none
  | some db1 =>
    some (db1,
      [{ exchange := "inventory.exchange"
         routingKey := "inventory.release"
         payload := .inventoryRelease ev.orderId now }])

end OrderService

/-!
## Message broker client

`publish` serializes the message with `JSON.stringify` into a byte buffer;
the dispatch loop installed by `subscribe` deserializes with `JSON.parse`,
invokes the handler, and acknowledges or negatively-acknowledges-with-requeue.
`close` closes the channel and then the connection, with JavaScript
exception propagation: a rejected `channel.close()` aborts the method.

The JavaScript value space relevant to the event schemas is modelled by
`JsValue` (which includes `Date` objects); the JSON wire trees produced by
`JSON.stringify` and returned by `JSON.parse` are `JsonValue` (no dates:
JSON has no date type, `JSON.stringify` serializes a `Date` via
`toISOString`, and `JSON.parse` performs no revival). -/

mutual
/-- A JavaScript value as published by the service: primitives, `Date`
objects (epoch milliseconds, post-1970), arrays, and objects with ordered
fields. -/
inductive JsValue where
  | null
  | boolean (b : Bool)
  | number (q : Rat)
  | string (s : String)
  | date (millis : Nat)
  | array (xs : JsArray)
  | object (fs : JsObject)
deriving DecidableEq
/-- List of JavaScript values (array elements). -/
inductive JsArray where
  | nil
  | cons (hd : JsValue) (tl : JsArray)
deriving DecidableEq
/-- Ordered field list of a JavaScript object. -/
inductive JsObject where
  | nil
  | cons (key : String) (val : JsValue) (tl : JsObject)
deriving DecidableEq
end

mutual
/-- A JSON tree: what actually crosses the wire.  No date constructor. -/
inductive JsonValue where
  | null
  | boolean (b : Bool)
  | number (q : Rat)
  | string (s : String)
  | array (xs : JsonArray)
  | object (fs : JsonObject)
deriving DecidableEq
/-- List of JSON values. -/
inductive JsonArray where
  | nil
  | cons (hd : JsonValue) (tl : JsonArray)
deriving DecidableEq
/-- Ordered field list of a JSON object. -/
inductive JsonObject where
  | nil
  | cons (key : String) (val : JsonValue) (tl : JsonObject)
deriving DecidableEq
end

/-- Left-pad a number below 100 to two digits (`Date.toISOString` fields). -/
def pad2 (n : Nat) : String :=
  if n < 10 then "0" ++ toString n else toString n

/-- Left-pad a number below 1000 to three digits (milliseconds field). -/
def pad3 (n : Nat) : String :=
  if n < 10 then "00" ++ toString n
  else if n < 100 then "0" ++ toString n
  else toString n

/-- Gregorian calendar date (year, month, day) of a day count since
1970-01-01, by the standard era decomposition of the proleptic Gregorian
calendar. -/
def civilFromDays (daysSinceEpoch : Nat) : Nat × Nat × Nat :=
  let z := daysSinceEpoch + 719468
  let era := z / 146097
  let doe := z % 146097
  let yoe := (doe - doe / 1460 + doe / 36524 - doe / 146096) / 365
  let y := yoe + era * 400
  let doy := doe - (365 * yoe + yoe / 4 - yoe / 100)
  let mp := (5 * doy + 2) / 153
  let d := doy - (153 * mp + 2) / 5 + 1
  let m := if mp < 10 then mp + 3 else mp - 9
  (if m ≤ 2 then y + 1 else y, m, d)

/-- `Date.prototype.toISOString` on a post-epoch instant:
`YYYY-MM-DDTHH:mm:ss.sssZ`. -/
def toISOString (millis : Nat) : String :=
  let ms := millis % 1000
  let totalSeconds := millis / 1000
  let s := totalSeconds % 60
  let totalMinutes := totalSeconds / 60
  let mi := totalMinutes % 60
  let totalHours := totalMinutes / 60
  let h := totalHours % 24
  let days := totalHours / 24
  let ymd := civilFromDays days
  toString ymd.1 ++ "-" ++ pad2 ymd.2.1 ++ "-" ++ pad2 ymd.2.2 ++ "T" ++
    pad2 h ++ ":" ++ pad2 mi ++ ":" ++ pad2 s ++ "." ++ pad3 ms ++ "Z"

namespace RabbitMQClient

mutual
/-- `JSON.stringify` as a map from JavaScript values to the JSON tree of
the produced text (source line 79, `Buffer.from(JSON.stringify(message))`):
primitives map to themselves and a `Date` serializes to its ISO-8601
string via `toJSON`/`toISOString`. -/
def stringify : JsValue → JsonValue
  | .null => .null
  | .boolean b => .boolean b
  | .number q => .number q
  | .string s => .string s
  | .date t => .string (toISOString t)
  | .array xs => .array (stringifyArray xs)
  | .object fs => .object (stringifyObject fs)
/-- `JSON.stringify` on array elements. -/
def stringifyArray : JsArray → JsonArray
  | .nil => .nil
  | .cons v tl => .cons (stringify v) (stringifyArray tl)
/-- `JSON.stringify` on object fields. -/
def stringifyObject : JsObject → JsonObject
  | .nil => .nil
  | .cons k v tl => .cons k (stringify v) (stringifyObject tl)
end

mutual
/-- `JSON.parse` of a wire tree (source line 107,
`JSON.parse(msg.content.toString())`): yields plain JavaScript values; no
constructor of the result is a `Date` — ISO strings stay strings. -/
def parseJson : JsonValue → JsValue
  | .null => .null
  | .boolean b => .boolean b
  | .number q => .number q
  | .string s => .string s
  | .array xs => .array (parseJsonArray xs)
  | .object fs => .object (parseJsonObject fs)
/-- `JSON.parse` on array elements. -/
def parseJsonArray : JsonArray → JsArray
  | .nil => .nil
  | .cons v tl => .cons (parseJson v) (parseJsonArray tl)
/-- `JSON.parse` on object fields. -/
def parseJsonObject : JsonObject → JsObject
  | .nil => .nil
  | .cons k v tl => .cons k (parseJson v) (parseJsonObject tl)
end

/-- What a consumer receives for a published message: `JSON.parse` applied
to the `JSON.stringify` of it (publish, source lines 68-90, then the
dispatch loop of subscribe, source lines 101-117). -/
def roundTrip (v : JsValue) : JsValue :=
  parseJson (stringify v)

mutual
/-- The identity on JavaScript values except that every `Date` is replaced
by its ISO-8601 string — the actual effect of a stringify/parse round
trip. -/
def stripDates : JsValue → JsValue
  | .null => .null
  | .boolean b => .boolean b
  | .number q => .number q
  | .string s => .string s
  | .date t => .string (toISOString t)
  | .array xs => .array (stripDatesArray xs)
  | .object fs => .object (stripDatesObject fs)
/-- `stripDates` on array elements. -/
def stripDatesArray : JsArray → JsArray
  | .nil => .nil
  | .cons v tl => .cons (stripDates v) (stripDatesArray tl)
/-- `stripDates` on object fields. -/
def stripDatesObject : JsObject → JsObject
  | .nil => .nil
  | .cons k v tl => .cons k (stripDates v) (stripDatesObject tl)
end

/-- The byte payload of a delivered message, as seen by `JSON.parse`:
either it decodes to a JSON tree or `JSON.parse` throws. -/
inductive MessageContent where
  | decodable (v : JsonValue)
  | undecodable
deriving DecidableEq

/-- Observable outcome of the dispatch loop on one delivered message. -/
structure DispatchOutcome where
  /-- `some v` iff the registered callback was invoked, with its argument. -/
  handlerRan : Option JsValue
  /-- whether `channel.ack(msg)` was called. -/
  acked : Bool
  /-- whether `channel.nack(msg, false, true)` was called. -/
  nacked : Bool
  /-- the `requeue` flag passed to `nack` (meaningful when `nacked`). -/
  nackRequeue : Bool
deriving DecidableEq

/-- The consumer installed by `subscribe` (source lines 101-117) on one
delivered message: parse the content, invoke the callback, `ack` on
success; any error — from `JSON.parse` or from the callback — is caught
and the message is `nack`ed with `requeue = true`.  `handlerOk v` tells
whether the callback completes without error on input `v`. -/
def dispatchMessage (content : MessageContent)
    (handlerOk : JsValue → Bool) : DispatchOutcome :=
  match content with
  | .undecodable =>
    { handlerRan := none, acked := false, nacked := true, nackRequeue := true }
  | .decodable json =>
    let v := parseJson json
    if handlerOk v then
      { handlerRan := some v, acked := true, nacked := false,
        nackRequeue := false }
    else
      { handlerRan := some v, acked := false, nacked := true,
        nackRequeue := true }

/-- `close` (source lines 132-139) under JavaScript exception propagation:
`if (this.channel) await this.channel.close(); if (this.connection) await
this.connection.close();` — a rejected `channel.close()` aborts the method
before `connection.close()` runs.  Arguments say whether each handle is
non-null and whether its `close` call rejects; the result is the ordered
trace of close calls issued and the propagated error, if any. -/
def close (hasChannel hasConnection channelCloseFails connectionCloseFails :
    Bool) : List String × Option String :=
  if hasChannel then
    if channelCloseFails then
      (["channel.close"], some "channel close failed")
    else if hasConnection then
      if connectionCloseFails then
        (["channel.close", "connection.close"], some "connection close failed")
      else
        (["channel.close", "connection.close"], none)
    else
      (["channel.close"], none)
  else if hasConnection then
    if connectionCloseFails then
      (["connection.close"], some "connection close failed")
    else
      (["connection.close"], none)
  else
    ([], none)

end RabbitMQClient
/-!
## List-level helper lemmas
-/

/-- `find?` over a filtered list agrees with `find?` over the whole list
when the search predicate implies the filter predicate. -/
theorem find?_filter_eq {α : Type} (l : List α) (p q : α → Bool)
    (h : ∀ a, p a = true → q a = true) :
    (l.filter q).find? p = l.find? p := by
  induction l with
  | nil => rfl
  | cons a t ih =>
    by_cases hq : q a = true
    · by_cases hp : p a = true
      · simp [List.filter_cons, hq, List.find?, hp]
      · simp only [Bool.not_eq_true] at hp
        simp [List.filter_cons, hq, List.find?, hp, ih]
    · have hp : p a = false := by
        cases hpa : p a
        · rfl
        · exact absurd (h a hpa) hq
      simp only [Bool.not_eq_true] at hq
      simp [List.filter_cons, hq, List.find?, hp, ih]

/-- A successful `find?` makes `any` true. -/
theorem any_of_find?_eq_some {α : Type} {l : List α} {p : α → Bool} {a : α}
    (h : l.find? p = some a) : l.any p = true :=
  List.any_eq_true.mpr ⟨a, List.mem_of_find?_eq_some h, List.find?_some h⟩

/-- Updating the status of the rows matching an id commutes with looking
the id up: the lookup returns the previously found row with the new
status. -/
theorem find?_status_update (l : List Order) (oid : String)
    (st : OrderStatus) :
    (l.map (fun o => if o.id == oid then { o with status := st } else o)).find?
        (fun o => o.id == oid) =
      (l.find? (fun o => o.id == oid)).map
        (fun o => { o with status := st }) := by
  induction l with
  | nil => rfl
  | cons a t ih =>
    simp only [List.map_cons]
    by_cases h : (a.id == oid) = true
    · rw [if_pos h, List.find?_cons_of_pos _ (by exact h),
        @List.find?_cons_of_pos _ (fun o => o.id == oid) a _ h,
        Option.map_some']
    · rw [if_neg h, List.find?_cons_of_neg _ (by exact h),
        @List.find?_cons_of_neg _ (fun o => o.id == oid) a _ h, ih]

/-- `updateOrderStatus` on an id that resolves: it succeeds, the result is
the pointwise status update, and looking the id up afterwards returns the
found row with the new status. -/
theorem updateOrderStatus_of_findOrder {db : Db} {oid : String}
    {o : Order} (st : OrderStatus) (h : findOrder db oid = some o) :
    updateOrderStatus db oid st =
        some { db with orders := db.orders.map (fun x =>
          if x.id == oid then { x with status := st } else x) } ∧
      findOrder { db with orders := db.orders.map (fun x =>
          if x.id == oid then { x with status := st } else x) } oid =
        some { o with status := st } := by
  constructor
  · unfold updateOrderStatus
    rw [any_of_find?_eq_some h]
    simp
  · unfold findOrder at h ⊢
    simp only [find?_status_update, h, Option.map_some']
namespace OrderService

/-- Catalog price of a product id within a product list (`0` when the id
does not resolve; on the paths where it is used the id always resolves). -/
def priceOf (products : List Product) (pid : String) : Int :=
  match products.find? (fun p => p.id == pid) with
  | some p => p.price
  | none => 0

/-- A successful validation loop certifies, for every requested item, an
existing product with a stock record whose quantity on hand is at least
the requested quantity. -/
theorem computeTotal_ok_sufficient {products : List Product}
    {items : List RequestItem} {t : Int}
    (h : computeTotal products items = .ok t) :
    ∀ item ∈ items, ∃ p s,
      products.find? (fun q => q.id == item.productId) = some p ∧
      p.stock = some s ∧ item.quantity ≤ s.quantity := by
  induction items generalizing t with
  | nil => intro item hmem; exact absurd hmem (List.not_mem_nil item)
  | cons hd tl ih =>
    intro item hmem
    unfold computeTotal at h
    cases hfind : products.find? (fun p => p.id == hd.productId) with
    | none => rw [hfind] at h; dsimp only at h; exact absurd h (by simp)
    | some product =>
      rw [hfind] at h; dsimp only at h
      cases hstock : product.stock with
      | none => rw [hstock] at h; dsimp only at h; exact absurd h (by simp)
      | some s =>
        rw [hstock] at h; dsimp only at h
        by_cases hq : s.quantity < hd.quantity
        · rw [if_pos hq] at h; exact absurd h (by simp)
        · rw [if_neg hq] at h
          cases hrec : computeTotal products tl with
          | error e => rw [hrec] at h; dsimp only at h; exact absurd h (by simp)
          | ok t' =>
            rcases List.mem_cons.mp hmem with heq | hmem'
            · subst heq
              exact ⟨product, s, hfind, hstock, Int.not_lt.mp hq⟩
            · exact ih hrec item hmem'

/-- The value computed by a successful validation loop is the sum over the
request items of catalog price times quantity. -/
theorem computeTotal_ok_sum {products : List Product}
    {items : List RequestItem} {t : Int}
    (h : computeTotal products items = .ok t) :
    t = (items.map (fun item =>
      priceOf products item.productId * item.quantity)).sum := by
  induction items generalizing t with
  | nil =>
    unfold computeTotal at h
    simp only [List.map_nil, List.sum_nil]
    exact ((Except.ok.injEq _ _).mp h).symm
  | cons hd tl ih =>
    unfold computeTotal at h
    cases hfind : products.find? (fun p => p.id == hd.productId) with
    | none => rw [hfind] at h; dsimp only at h; exact absurd h (by simp)
    | some product =>
      rw [hfind] at h; dsimp only at h
      cases hstock : product.stock with
      | none => rw [hstock] at h; dsimp only at h; exact absurd h (by simp)
      | some s =>
        rw [hstock] at h; dsimp only at h
        by_cases hq : s.quantity < hd.quantity
        · rw [if_pos hq] at h; exact absurd h (by simp)
        · rw [if_neg hq] at h
          cases hrec : computeTotal products tl with
          | error e => rw [hrec] at h; dsimp only at h; exact absurd h (by simp)
          | ok t' =>
            rw [hrec] at h; dsimp only at h
            have ht : t = product.price * hd.quantity + t' :=
              ((Except.ok.injEq _ _).mp h).symm
            rw [ht, ih hrec, List.map_cons, List.sum_cons]
            unfold priceOf
            rw [hfind]

/-- A failing validation loop over items whose products all resolve fails
with a `BadRequestException` (insufficient stock), never `NotFound`. -/
theorem computeTotal_error_allFound {products : List Product}
    {items : List RequestItem} {e : ServiceError}
    (h : computeTotal products items = .error e)
    (hfound : ∀ item ∈ items,
      (products.find? (fun q => q.id == item.productId)).isSome = true) :
    ∃ msg, e = .badRequest msg := by
  induction items with
  | nil => unfold computeTotal at h; exact absurd h (by simp)
  | cons hd tl ih =>
    unfold computeTotal at h
    cases hfind : products.find? (fun p => p.id == hd.productId) with
    | none =>
      have := hfound hd (List.mem_cons_self hd tl)
      rw [hfind] at this
      exact absurd this (by simp)
    | some product =>
      rw [hfind] at h; dsimp only at h
      cases hstock : product.stock with
      | none =>
        rw [hstock] at h; dsimp only at h
        exact ⟨_, ((Except.error.injEq _ _).mp h).symm⟩
      | some s =>
        rw [hstock] at h; dsimp only at h
        by_cases hq : s.quantity < hd.quantity
        · rw [if_pos hq] at h
          exact ⟨_, ((Except.error.injEq _ _).mp h).symm⟩
        · rw [if_neg hq] at h
          cases hrec : computeTotal products tl with
          | error e' =>
            rw [hrec] at h; dsimp only at h
            have he : e = e' := ((Except.error.injEq _ _).mp h).symm
            subst he
            exact ih hrec (fun item hm => hfound item (List.mem_cons_of_mem hd hm))
          | ok t' => rw [hrec] at h; dsimp only at h; exact absurd h (by simp)

end OrderService
namespace OrderService

/-- `priceOf` over the product list filtered to the requested ids agrees
with `priceOf` over the whole catalog, for any requested item. -/
theorem priceOf_filter (db : Db) (items : List RequestItem)
    (item : RequestItem) (hmem : item ∈ items) :
    priceOf (db.products.filter (fun p =>
        (items.map (fun i => i.productId)).contains p.id)) item.productId =
      priceOf db.products item.productId := by
  unfold priceOf
  rw [find?_filter_eq]
  intro a ha
  have hid : a.id = item.productId := eq_of_beq ha
  rw [hid]
  exact List.elem_eq_true_of_mem (List.mem_map_of_mem _ hmem)

/-- Likewise for `find?` itself. -/
theorem find?_products_filter (db : Db) (items : List RequestItem)
    (item : RequestItem) (hmem : item ∈ items) :
    (db.products.filter (fun p =>
        (items.map (fun i => i.productId)).contains p.id)).find?
          (fun q => q.id == item.productId) =
      db.products.find? (fun q => q.id == item.productId) := by
  rw [find?_filter_eq]
  intro a ha
  have hid : a.id = item.productId := eq_of_beq ha
  rw [hid]
  exact List.elem_eq_true_of_mem (List.mem_map_of_mem _ hmem)

/-- C3 (amended): `createOrder` succeeds only when every requested item's
product resolves and carries a stock record whose quantity on hand —
ignoring the reserved quantity — is at least the requested quantity. -/
theorem createOrder_ok_stock_on_hand {db : Db} {dto : CreateOrderDto}
    {newOrderId : String} {now : Nat}
    {r : Order × List Published}
    (h : (createOrder db dto newOrderId now).2 = .ok r) :
    ∀ item ∈ dto.items, ∃ p s,
      db.products.find? (fun q => q.id == item.productId) = some p ∧
      p.stock = some s ∧ item.quantity ≤ s.quantity := by
  unfold createOrder at h
  dsimp only at h
  split at h
  · simp at h
  · split at h
    · simp at h
    · next totalAmount heq =>
      intro item hmem
      obtain ⟨p, s, hfind, hstock, hle⟩ :=
        computeTotal_ok_sufficient heq item hmem
      rw [find?_products_filter db dto.items item hmem] at hfind
      exact ⟨p, s, hfind, hstock, hle⟩

/-- C4: a successfully created order has status `PENDING` and total amount
equal to the sum over the request items of catalog price times quantity. -/
theorem createOrder_total_and_status {db : Db} {dto : CreateOrderDto}
    {newOrderId : String} {now : Nat} {order : Order}
    {pubs : List Published}
    (h : (createOrder db dto newOrderId now).2 = .ok (order, pubs)) :
    order.status = .PENDING ∧
    order.totalAmount = (dto.items.map (fun item =>
      priceOf db.products item.productId * item.quantity)).sum := by
  unfold createOrder at h
  dsimp only at h
  split at h
  · simp at h
  · split at h
    · simp at h
    · next totalAmount heq =>
      dsimp only at h
      have h' := (Except.ok.injEq _ _).mp h
      obtain ⟨ho, hp⟩ := (Prod.mk.injEq _ _ _ _).mp h'
      constructor
      · rw [← ho]
      · rw [← ho]
        show totalAmount = _
        rw [computeTotal_ok_sum heq]
        exact congrArg List.sum (List.map_congr_left (fun item hmem =>
          by rw [priceOf_filter db dto.items item hmem]))

end OrderService
namespace OrderService

/-- C5 (amended): when the product-count check passes, every requested
product resolves, and some item's quantity exceeds its product's quantity
on hand (or the product has no stock record), `createOrder` throws
`BadRequestException` and the repository is unchanged. -/
theorem createOrder_insufficient_on_hand {db : Db} {dto : CreateOrderDto}
    {newOrderId : String} {now : Nat}
    (hlen : (db.products.filter (fun p =>
      (dto.items.map (fun i => i.productId)).contains p.id)).length =
        dto.items.length)
    (hfound : ∀ item ∈ dto.items,
      (db.products.find? (fun q => q.id == item.productId)).isSome = true)
    (hbad : ∃ item ∈ dto.items, ∃ p,
      db.products.find? (fun q => q.id == item.productId) = some p ∧
      (p.stock = none ∨ ∃ s, p.stock = some s ∧ s.quantity < item.quantity)) :
    ∃ msg, createOrder db dto newOrderId now =
      (db, .error (.badRequest msg)) := by
  cases hct : computeTotal (db.products.filter (fun p =>
      (dto.items.map (fun i => i.productId)).contains p.id)) dto.items with
  | ok t =>
    exfalso
    obtain ⟨item, hmem, p, hfind, hviol⟩ := hbad
    obtain ⟨p', s', hfind', hstock', hle⟩ :=
      computeTotal_ok_sufficient hct item hmem
    rw [find?_products_filter db dto.items item hmem] at hfind'
    rw [hfind] at hfind'
    obtain rfl : p = p' := (Option.some.injEq _ _).mp hfind'
    rcases hviol with hnone | ⟨s, hs, hlt⟩
    · rw [hnone] at hstock'
      exact absurd hstock' (by simp)
    · rw [hs] at hstock'
      obtain rfl : s = s' := (Option.some.injEq _ _).mp hstock'
      exact absurd hle (Int.not_le.mpr hlt)
  | error e =>
    obtain ⟨msg, rfl⟩ := computeTotal_error_allFound hct (fun item hm => by
      rw [find?_products_filter db dto.items item hm]
      exact hfound item hm)
    refine ⟨msg, ?_⟩
    unfold createOrder
    dsimp only
    rw [hlen, hct]
    simp

end OrderService
namespace OrderService

/-- C1 (amended): applying `inventory.reserved{success:true}` to a
`PENDING` order sets it to `CONFIRMED` and publishes one `payment.initiate`
with the order's total amount; re-applying the same event to the
now-`CONFIRMED` order leaves the status `CONFIRMED` but publishes a second
`payment.initiate` (the handler never checks the current status, so each
redelivery re-publishes). -/
theorem handleInventoryReserved_republishes {db : Db} {oid : String}
    {o : Order} (m : Option String) (ts t1 t2 : Nat)
    (hfind : findOrder db oid = some o) (_hpend : o.status = .PENDING) :
    ∃ db1 db2,
      handleInventoryReserved db ⟨oid, true, m, ts⟩ t1 =
        some (db1, [⟨"payments.exchange", "payment.initiate",
          .paymentInitiate o.id o.totalAmount t1⟩]) ∧
      findOrder db1 oid = some { o with status := .CONFIRMED } ∧
      handleInventoryReserved db1 ⟨oid, true, m, ts⟩ t2 =
        some (db2, [⟨"payments.exchange", "payment.initiate",
          .paymentInitiate o.id o.totalAmount t2⟩]) ∧
      findOrder db2 oid = some { o with status := .CONFIRMED } := by
  obtain ⟨hupd1, hfind1⟩ := updateOrderStatus_of_findOrder .CONFIRMED hfind
  obtain ⟨hupd2, hfind2⟩ := updateOrderStatus_of_findOrder .CONFIRMED hfind1
  refine ⟨{ db with orders := db.orders.map (fun x =>
      if x.id == oid then { x with status := OrderStatus.CONFIRMED } else x) },
    { products := db.products,
      orders := (db.orders.map (fun x =>
        if x.id == oid then { x with status := OrderStatus.CONFIRMED }
        else x)).map (fun x =>
        if x.id == oid then { x with status := OrderStatus.CONFIRMED }
        else x) },
    ?_, hfind1, ?_, ?_⟩
  · unfold handleInventoryReserved
    rw [hupd1]
    dsimp only
    rw [hfind1]
    rfl
  · unfold handleInventoryReserved
    rw [hupd2]
    dsimp only
    rw [hfind2]
    rfl
  · exact hfind2

end OrderService

namespace OrderService

/-- C2 (amended): no event handler checks the order's current status:
each handler succeeds on any existing order — terminal states included —
and unconditionally sets its fixed target status (`CONFIRMED` for a
successful reservation, `PROCESSING` for a completed payment, `FAILED`
otherwise), moving the order out of the terminal state whenever the target
differs; no handler raises an error on an existing order. -/
theorem handlers_override_terminal_states {db : Db} {oid : String}
    {o : Order}
    (hfind : findOrder db oid = some o)
    (_hterm : o.status = .CANCELLED ∨ o.status = .FAILED ∨
      o.status = .DELIVERED)
    (m : Option String) (reason tid : String) (amt : Int)
    (pm : PaymentMethod) (ts now : Nat) :
    (∃ db1, handleInventoryReserved db ⟨oid, true, m, ts⟩ now =
        some (db1, [⟨"payments.exchange", "payment.initiate",
          .paymentInitiate o.id o.totalAmount now⟩]) ∧
      findOrder db1 oid = some { o with status := .CONFIRMED }) ∧
    (∃ db2, handleInventoryReserved db ⟨oid, false, m, ts⟩ now =
        some (db2, []) ∧
      findOrder db2 oid = some { o with status := .FAILED }) ∧
    (∃ db3, handleInventoryFailed db ⟨oid, reason, ts⟩ =
        some (db3, []) ∧
      findOrder db3 oid = some { o with status := .FAILED }) ∧
    (∃ db4, handlePaymentCompleted db ⟨oid, tid, amt, pm, ts⟩ now =
        some (db4, [⟨"orders.exchange", "order.confirmed",
          .orderConfirmed oid tid now⟩]) ∧
      findOrder db4 oid = some { o with status := .PROCESSING }) ∧
    (∃ db5, handlePaymentFailed db ⟨oid, reason, ts⟩ now =
        some (db5, [⟨"inventory.exchange", "inventory.release",
          .inventoryRelease oid now⟩]) ∧
      findOrder db5 oid = some { o with status := .FAILED }) := by
  obtain ⟨hC, hfC⟩ := updateOrderStatus_of_findOrder .CONFIRMED hfind
  obtain ⟨hF, hfF⟩ := updateOrderStatus_of_findOrder .FAILED hfind
  obtain ⟨hP, hfP⟩ := updateOrderStatus_of_findOrder .PROCESSING hfind
  refine ⟨⟨_, ?_, hfC⟩, ⟨_, ?_, hfF⟩, ⟨_, ?_, hfF⟩, ⟨_, ?_, hfP⟩,
    ⟨_, ?_, hfF⟩⟩
  · unfold handleInventoryReserved
    rw [hC]
    dsimp only
    rw [hfC]
    rfl
  · unfold handleInventoryReserved
    rw [hF]
    rfl
  · unfold handleInventoryFailed
    rw [hF]
  · unfold handlePaymentCompleted
    rw [hP]
  · unfold handlePaymentFailed
    rw [hF]

/-- C7: `cancelOrder` on a fetched order: when the status is `PENDING` or
`CONFIRMED` it stores `CANCELLED` and publishes one `order.cancelled`
event carrying the order id, the reason `"Cancelled by user"` and the
timestamp; for any other status it throws `BadRequestException` and the
repository is unchanged. -/
theorem cancelOrder_spec {db : Db} {oid : String} {uid : Option String}
    {now : Nat} {o : Order} (h : getOrderById db oid uid = .ok o) :
    ((o.status = .PENDING ∨ o.status = .CONFIRMED) →
      cancelOrder db oid uid now =
        ({ db with orders := db.orders.map (fun x =>
            if x.id == oid then { x with status := .CANCELLED } else x) },
          .ok ({ o with status := .CANCELLED },
            [⟨"orders.exchange", "order.cancelled",
              .orderCancelled oid "Cancelled by user" now⟩]))) ∧
    (o.status ≠ .PENDING → o.status ≠ .CONFIRMED →
      cancelOrder db oid uid now =
        (db, .error (.badRequest "Cannot cancel order in current status"))) := by
  constructor
  · intro hok
    have hb : (o.status != .PENDING && o.status != .CONFIRMED) = false := by
      rcases hok with h1 | h1 <;> rw [h1] <;> rfl
    unfold cancelOrder
    rw [h]
    dsimp only
    rw [hb]
    rfl
  · intro h1 h2
    have hb : (o.status != .PENDING && o.status != .CONFIRMED) = true := by
      cases hs : o.status <;>
        first
          | exact absurd hs h1
          | exact absurd hs h2
          | rfl
    unfold cancelOrder
    rw [h]
    dsimp only
    rw [hb]
    rfl

end OrderService
namespace RabbitMQClient

mutual
/-- Round trip on a value: identity with dates turned into ISO strings. -/
theorem parseJson_stringify_val : (v : JsValue) →
    parseJson (stringify v) = stripDates v
  | .null => rfl
  | .boolean _ => rfl
  | .number _ => rfl
  | .string _ => rfl
  | .date _ => rfl
  | .array xs => by
    simp only [stringify, parseJson, stripDates]
    exact congrArg JsValue.array (parseJson_stringify_arr xs)
  | .object fs => by
    simp only [stringify, parseJson, stripDates]
    exact congrArg JsValue.object (parseJson_stringify_obj fs)
/-- Round trip on array elements. -/
theorem parseJson_stringify_arr : (xs : JsArray) →
    parseJsonArray (stringifyArray xs) = stripDatesArray xs
  | .nil => rfl
  | .cons v tl => by
    simp only [stringifyArray, parseJsonArray, stripDatesArray]
    exact congr (congrArg JsArray.cons (parseJson_stringify_val v))
      (parseJson_stringify_arr tl)
/-- Round trip on object fields. -/
theorem parseJson_stringify_obj : (fs : JsObject) →
    parseJsonObject (stringifyObject fs) = stripDatesObject fs
  | .nil => rfl
  | .cons k v tl => by
    simp only [stringifyObject, parseJsonObject, stripDatesObject]
    exact congr (congrArg (JsObject.cons k) (parseJson_stringify_val v))
      (parseJson_stringify_obj tl)
end

end RabbitMQClient

/-- Schema check for the item entries of `order.created`. -/
def isItemList : JsArray → Bool
  | .nil => true
  | .cons (.object (.cons "productId" (.string _)
      (.cons "quantity" (.number _) .nil))) tl => isItemList tl
  | _ => false

/-- `order.created`: orderId, userId, items, totalAmount, timestamp. -/
def isOrderCreatedEvent : JsValue → Bool
  | .object (.cons "orderId" (.string _) (.cons "userId" (.string _)
      (.cons "items" (.array items) (.cons "totalAmount" (.number _)
      (.cons "timestamp" (.date _) .nil))))) => isItemList items
  | _ => false

/-- `order.cancelled`: orderId, reason, timestamp. -/
def isOrderCancelledEvent : JsValue → Bool
  | .object (.cons "orderId" (.string _) (.cons "reason" (.string _)
      (.cons "timestamp" (.date _) .nil))) => true
  | _ => false

/-- `order.confirmed`: orderId, transactionId, timestamp. -/
def isOrderConfirmedEvent : JsValue → Bool
  | .object (.cons "orderId" (.string _) (.cons "transactionId" (.string _)
      (.cons "timestamp" (.date _) .nil))) => true
  | _ => false

/-- `inventory.reserved`: orderId, success, optional message, timestamp. -/
def isInventoryReservedEvent : JsValue → Bool
  | .object (.cons "orderId" (.string _) (.cons "success" (.boolean _)
      (.cons "timestamp" (.date _) .nil))) => true
  | .object (.cons "orderId" (.string _) (.cons "success" (.boolean _)
      (.cons "message" (.string _) (.cons "timestamp" (.date _) .nil)))) =>
    true
  | _ => false

/-- `inventory.failed`: orderId, reason, timestamp. -/
def isInventoryFailedEvent : JsValue → Bool
  | .object (.cons "orderId" (.string _) (.cons "reason" (.string _)
      (.cons "timestamp" (.date _) .nil))) => true
  | _ => false

/-- `inventory.release`: orderId, timestamp. -/
def isInventoryReleaseEvent : JsValue → Bool
  | .object (.cons "orderId" (.string _)
      (.cons "timestamp" (.date _) .nil)) => true
  | _ => false

/-- `payment.initiate`: orderId, amount, timestamp. -/
def isPaymentInitiateEvent : JsValue → Bool
  | .object (.cons "orderId" (.string _) (.cons "amount" (.number _)
      (.cons "timestamp" (.date _) .nil))) => true
  | _ => false

/-- `payment.completed`: orderId, transactionId, amount, paymentMethod,
timestamp. -/
def isPaymentCompletedEvent : JsValue → Bool
  | .object (.cons "orderId" (.string _) (.cons "transactionId" (.string _)
      (.cons "amount" (.number _) (.cons "paymentMethod" (.string _)
      (.cons "timestamp" (.date _) .nil))))) => true
  | _ => false

/-- `payment.failed`: orderId, reason, timestamp. -/
def isPaymentFailedEvent : JsValue → Bool
  | .object (.cons "orderId" (.string _) (.cons "reason" (.string _)
      (.cons "timestamp" (.date _) .nil))) => true
  | _ => false

/-- An event object conforming to one of the nine wire schemas. -/
def conformsEventSchema (v : JsValue) : Bool :=
  isOrderCreatedEvent v || isOrderCancelledEvent v ||
  isOrderConfirmedEvent v || isInventoryReservedEvent v ||
  isInventoryFailedEvent v || isInventoryReleaseEvent v ||
  isPaymentInitiateEvent v || isPaymentCompletedEvent v ||
  isPaymentFailedEvent v

namespace RabbitMQClient

/-- C8 (amended): a publish/consume round trip maps every JavaScript value
to itself with each `Date`-valued field replaced by its ISO-8601 string —
the identity on everything except dates, and in particular not the
identity on the timestamp field of any §6 event. -/
theorem roundTrip_strips_dates (v : JsValue) :
    roundTrip v = stripDates v :=
  parseJson_stringify_val v

end RabbitMQClient
namespace RabbitMQClient

/-- C9 (amended): `close` closes the channel and then the connection when
the channel close succeeds; but when closing the channel fails, the error
propagates and `connection.close` is never invoked, leaving the
broker-side connection unreleased. -/
theorem close_order_and_failure
    (hasChannel hasConnection channelCloseFails connectionCloseFails :
      Bool) :
    (hasChannel = true → channelCloseFails = false → hasConnection = true →
      (close hasChannel hasConnection channelCloseFails
        connectionCloseFails).1 = ["channel.close", "connection.close"]) ∧
    ((hasChannel = false ∨ channelCloseFails = false) →
      (("connection.close" ∈ (close hasChannel hasConnection
          channelCloseFails connectionCloseFails).1) ↔
        hasConnection = true)) ∧
    (hasChannel = true → channelCloseFails = true →
      (close hasChannel hasConnection channelCloseFails
          connectionCloseFails).1 = ["channel.close"] ∧
        (close hasChannel hasConnection channelCloseFails
          connectionCloseFails).2.isSome = true ∧
        "connection.close" ∉ (close hasChannel hasConnection
          channelCloseFails connectionCloseFails).1) := by
  cases hasChannel <;> cases hasConnection <;> cases channelCloseFails <;>
    cases connectionCloseFails <;> refine ⟨?_, ?_, ?_⟩ <;> decide

/-- C10: the dispatch loop never acknowledges and never invokes the
handler on an undecodable payload — it negatively acknowledges with
requeue enabled, exactly as for a handler failure — and a message is
acknowledged only when it decoded and the handler completed without
error. -/
theorem dispatch_ack_contract (f : JsValue → Bool) :
    (dispatchMessage .undecodable f =
      { handlerRan := none, acked := false, nacked := true,
        nackRequeue := true }) ∧
    (∀ json, f (parseJson json) = false →
      dispatchMessage (.decodable json) f =
        { handlerRan := some (parseJson json), acked := false,
          nacked := true, nackRequeue := true }) ∧
    (∀ c, (dispatchMessage c f).acked = true →
      ∃ json, c = .decodable json ∧ f (parseJson json) = true ∧
        (dispatchMessage c f).handlerRan = some (parseJson json)) := by
  refine ⟨rfl, ?_, ?_⟩
  · intro json hf
    unfold dispatchMessage
    dsimp only
    rw [hf]
    rfl
  · intro c hack
    cases c with
    | undecodable =>
      exact absurd hack (by simp [dispatchMessage])
    | decodable json =>
      by_cases hf : f (parseJson json) = true
      · refine ⟨json, rfl, hf, ?_⟩
        unfold dispatchMessage
        dsimp only
        rw [hf]
        rfl
      · rw [Bool.not_eq_true] at hf
        have : (dispatchMessage (.decodable json) f).acked = false := by
          unfold dispatchMessage
          dsimp only
          rw [hf]
          rfl
        rw [this] at hack
        exact absurd hack (by simp)

end RabbitMQClient
/-!
## Concrete instances

Small repositories, orders and requests used to instantiate the theorems
above and to exhibit the behaviours that deviate from the specification.
-/

/-- A `PENDING` order with total amount 20. -/
def pendingOrder : Order := ⟨"o1", "u1", .PENDING, 20, [], "a1"⟩

/-- Repository holding only `pendingOrder`. -/
def pendingDb : Db := ⟨[], [pendingOrder]⟩

/-- A `CANCELLED` (terminal) order with total amount 30. -/
def cancelledOrder : Order := ⟨"o2", "u2", .CANCELLED, 30, [], "a2"⟩

/-- Repository holding only `cancelledOrder`. -/
def cancelledDb : Db := ⟨[], [cancelledOrder]⟩

/-- A `PROCESSING` order with total amount 40. -/
def processingOrder : Order := ⟨"o3", "u3", .PROCESSING, 40, [], "a3"⟩

/-- Repository holding only `processingOrder`. -/
def processingDb : Db := ⟨[], [processingOrder]⟩

/-- A product priced 10 with 5 on hand, all 5 reserved: available stock in
the sense of the data model is `5 - 5 = 0`. -/
def widget : Product := ⟨"p1", "Widget", 10, some ⟨5, 5⟩⟩

/-- Catalog holding only `widget`, no orders. -/
def widgetDb : Db := ⟨[widget], []⟩

/-- A request for 3 units of `widget` — more than its available stock. -/
def threeWidgets : CreateOrderDto := ⟨"u1", [⟨"p1", 3⟩], "a1"⟩

/-- A product priced 7 with only 2 on hand. -/
def gadget : Product := ⟨"p2", "Gadget", 7, some ⟨2, 1⟩⟩

/-- Catalog holding only `gadget`, no orders. -/
def gadgetDb : Db := ⟨[gadget], []⟩

/-- A request for 3 units of `gadget` — more than quantity on hand. -/
def threeGadgets : CreateOrderDto := ⟨"u1", [⟨"p2", 3⟩], "a1"⟩

/-- A product priced 15 with ample stock. -/
def book : Product := ⟨"p3", "Book", 15, some ⟨10, 0⟩⟩

/-- Catalog holding only `book`, no orders. -/
def bookDb : Db := ⟨[book], []⟩

/-- A valid request for 2 units of `book`. -/
def twoBooks : CreateOrderDto := ⟨"u1", [⟨"p3", 2⟩], "a1"⟩

/-- The `inventory.reserved{success:true}` event for `pendingOrder`. -/
def reservedOkEv : InventoryReservedEvent := ⟨"o1", true, none, 0⟩

/-- A §6-conformant `inventory.release` wire object whose timestamp is a
`Date`. -/
def releaseEventJs : JsValue :=
  .object (.cons "orderId" (.string "o1")
    (.cons "timestamp" (.date 0) .nil))

/-- C1 (counterexample): delivering `inventory.reserved{success:true}`
twice to the pending order publishes `payment.initiate` on the second
delivery as well — the status is `CONFIRMED` after the first delivery,
yet the redelivery publishes one more event instead of none. -/
theorem handleInventoryReserved_second_publish_cex :
    (OrderService.handleInventoryReserved pendingDb reservedOkEv 1).map
        (fun r => (findOrder r.1 "o1").map (fun o => o.status)) =
      some (some OrderStatus.CONFIRMED) ∧
    ((OrderService.handleInventoryReserved pendingDb reservedOkEv 1).bind
        (fun r => OrderService.handleInventoryReserved r.1 reservedOkEv 2)).map
        Prod.snd =
      some [⟨"payments.exchange", "payment.initiate",
        .paymentInitiate "o1" 20 2⟩] ∧
    ([⟨"payments.exchange", "payment.initiate",
        .paymentInitiate "o1" 20 2⟩] : List Published) ≠ [] := by
  decide

/-- C1 (witness). -/
theorem handleInventoryReserved_republishes_witness :
    ∃ db1 db2,
      OrderService.handleInventoryReserved pendingDb ⟨"o1", true, none, 5⟩ 1 =
        some (db1, [⟨"payments.exchange", "payment.initiate",
          .paymentInitiate "o1" 20 1⟩]) ∧
      findOrder db1 "o1" = some ⟨"o1", "u1", .CONFIRMED, 20, [], "a1"⟩ ∧
      OrderService.handleInventoryReserved db1 ⟨"o1", true, none, 5⟩ 2 =
        some (db2, [⟨"payments.exchange", "payment.initiate",
          .paymentInitiate "o1" 20 2⟩]) ∧
      findOrder db2 "o1" = some ⟨"o1", "u1", .CONFIRMED, 20, [], "a1"⟩ :=
  @OrderService.handleInventoryReserved_republishes pendingDb "o1"
    pendingOrder none 5 1 2 rfl rfl

/-- C2 (counterexample): `payment.completed` delivered for the terminal
`CANCELLED` order moves it to `PROCESSING` — an inbound event does move an
order out of a terminal state. -/
theorem handlePaymentCompleted_escapes_terminal_cex :
    (OrderService.handlePaymentCompleted cancelledDb
        ⟨"o2", "t1", 30, .STRIPE, 0⟩ 0).map
        (fun r => (findOrder r.1 "o2").map (fun o => o.status)) =
      some (some OrderStatus.PROCESSING) ∧
    OrderStatus.PROCESSING ≠ OrderStatus.CANCELLED := by
  decide

/-- C2 (witness). -/
theorem handlers_override_terminal_states_witness :
    ∃ db4, OrderService.handlePaymentCompleted cancelledDb
        ⟨"o2", "t", 5, .STRIPE, 3⟩ 4 =
        some (db4, [⟨"orders.exchange", "order.confirmed",
          .orderConfirmed "o2" "t" 4⟩]) ∧
      findOrder db4 "o2" = some ⟨"o2", "u2", .PROCESSING, 30, [], "a2"⟩ :=
  (@OrderService.handlers_override_terminal_states cancelledDb "o2"
    cancelledOrder rfl (Or.inl rfl) none "r" "t" 5 .STRIPE 3 4).2.2.2.1

/-- C3 (counterexample): the requested quantity 3 exceeds the available
stock `5 - 5 = 0` of `widget`, yet `createOrder` succeeds — the stock
check reads quantity on hand and ignores the reserved quantity. -/
theorem createOrder_ignores_reserved_cex :
    ((5 : Int) - 5 < 3) ∧
    (OrderService.createOrder widgetDb threeWidgets "o1" 0).2 =
      .ok (⟨"o1", "u1", .PENDING, 30, [⟨"p1", 3, 10⟩], "a1"⟩,
        [⟨"orders.exchange", "order.created",
          .orderCreated "o1" "u1" [⟨"p1", 3⟩] 30 0⟩]) := by
  decide

/-- C3 (witness). -/
theorem createOrder_ok_stock_on_hand_witness :
    ∃ p s,
      bookDb.products.find?
          (fun q => q.id == (⟨"p3", 2⟩ : RequestItem).productId) = some p ∧
      p.stock = some s ∧ (⟨"p3", 2⟩ : RequestItem).quantity ≤ s.quantity :=
  @OrderService.createOrder_ok_stock_on_hand bookDb twoBooks "o9" 7
    (⟨"o9", "u1", .PENDING, 30, [⟨"p3", 2, 15⟩], "a1"⟩,
      [⟨"orders.exchange", "order.created",
        .orderCreated "o9" "u1" [⟨"p3", 2⟩] 30 7⟩])
    (by decide) ⟨"p3", 2⟩ (by decide)

/-- C4 (witness). -/
theorem createOrder_total_and_status_witness :
    (⟨"o9", "u1", .PENDING, 30, [⟨"p3", 2, 15⟩], "a1"⟩ : Order).status =
      OrderStatus.PENDING ∧
    (⟨"o9", "u1", .PENDING, 30, [⟨"p3", 2, 15⟩], "a1"⟩ : Order).totalAmount =
      (twoBooks.items.map (fun item =>
        OrderService.priceOf bookDb.products item.productId *
          item.quantity)).sum :=
  @OrderService.createOrder_total_and_status bookDb twoBooks "o9" 7
    ⟨"o9", "u1", .PENDING, 30, [⟨"p3", 2, 15⟩], "a1"⟩
    [⟨"orders.exchange", "order.created",
      .orderCreated "o9" "u1" [⟨"p3", 2⟩] 30 7⟩]
    (by decide)

/-- C5 (counterexample): the request for 3 widgets exceeds the available
stock `5 - 5 = 0`, yet `createOrder` does not fail and the order is
persisted. -/
theorem createOrder_persists_despite_reserved_cex :
    ((5 : Int) - 5 < 3) ∧
    (OrderService.createOrder widgetDb threeWidgets "o1" 0).1.orders =
      [⟨"o1", "u1", .PENDING, 30, [⟨"p1", 3, 10⟩], "a1"⟩] := by
  decide

/-- C5 (witness). -/
theorem createOrder_insufficient_on_hand_witness :
    ∃ msg, OrderService.createOrder gadgetDb threeGadgets "o8" 2 =
      (gadgetDb, .error (.badRequest msg)) :=
  @OrderService.createOrder_insufficient_on_hand gadgetDb threeGadgets
    "o8" 2 (by decide) (by decide) (by decide)

/-- C6: with the product in stock but listed in two request items, the
product-count check misfires and `createOrder` throws
`NotFoundException` with the message `"Some products not found"` even
though every referenced product exists. -/
theorem createOrder_duplicate_ids_notFound :
    (widgetDb.products.find? (fun p => p.id == "p1")).isSome = true ∧
    OrderService.createOrder widgetDb ⟨"u1", [⟨"p1", 1⟩, ⟨"p1", 1⟩], "a1"⟩
        "o1" 0 =
      (widgetDb, .error (.notFound "Some products not found")) := by
  decide

/-- C7 (witness): cancelling the `PROCESSING` order throws and the
repository is unchanged. -/
theorem cancelOrder_spec_witness :
    OrderService.cancelOrder processingDb "o3" none 9 =
      (processingDb,
        .error (.badRequest "Cannot cancel order in current status")) :=
  (@OrderService.cancelOrder_spec processingDb "o3" none 9 processingOrder
    rfl).2 (by decide) (by decide)

/-- C8 (counterexample): a conformant `inventory.release` event is not
equal to its own publish/consume round trip — the `Date` timestamp comes
back as an ISO-8601 string. -/
theorem roundTrip_not_identity_cex :
    conformsEventSchema releaseEventJs = true ∧
    RabbitMQClient.roundTrip releaseEventJs ≠ releaseEventJs := by
  decide

/-- C9 (counterexample): with both handles open, a failing
`channel.close()` propagates and `connection.close()` is never invoked —
the connection is not released. -/
theorem close_leaves_connection_open_cex :
    (RabbitMQClient.close true true true false).2 =
      some "channel close failed" ∧
    "connection.close" ∉ (RabbitMQClient.close true true true false).1 := by
  decide

/-- C9 (witness). -/
theorem close_order_and_failure_witness :
    (RabbitMQClient.close true true true false).1 = ["channel.close"] ∧
    (RabbitMQClient.close true true true false).2.isSome = true ∧
    "connection.close" ∉ (RabbitMQClient.close true true true false).1 :=
  (RabbitMQClient.close_order_and_failure true true true false).2.2 rfl rfl

/-- C10 (witness): an undecodable payload is not acknowledged, not handed
to the handler, and negatively acknowledged with requeue. -/
theorem dispatch_ack_contract_witness :
    RabbitMQClient.dispatchMessage .undecodable (fun _ => false) =
      { handlerRan := none, acked := false, nacked := true,
        nackRequeue := true } :=
  (RabbitMQClient.dispatch_ack_contract (fun _ => false)).1
